import Mathlib

/-!
Verification of `pep517/wrappers.py` (a frontend-side caller for the PEP 517
build-backend hook protocol).

Python strings are modelled as `List Char` (`PyStr`); POSIX path semantics
(`os.path.isabs`, `posixpath.join`, `posixpath.normpath`, `os.path.normcase`,
`os.path.commonprefix`) are translated function by function from CPython's
`posixpath` module, which is the platform the embedding fixes (so
`os.path.normcase` is the identity and `os.pathsep` is a colon).
-/

/-- Python strings, modelled as lists of characters. -/
abbrev PyStr := List Char

/-- Coerce a Lean string literal into the `PyStr` model. -/
def pys (s : String) : PyStr := s.data

/-- Model of `posixpath.isabs`: a POSIX path is absolute when it starts with a slash. -/
def isabs : PyStr → Bool
  | '/' :: _ => true
  | _ => false

/-- Model of `str.split('/')` from Python, accumulator form. -/
def splitSlashAux : PyStr → PyStr → List PyStr
  | acc, [] => [acc.reverse]
  | acc, c :: rest =>
    if c = '/' then acc.reverse :: splitSlashAux [] rest
    else splitSlashAux (c :: acc) rest

/-- Model of `str.split('/')` from Python. -/
def splitSlash (p : PyStr) : List PyStr := splitSlashAux [] p

/-- Number of initial slashes recognised by `posixpath.normpath`:
POSIX treats exactly two leading slashes specially; one or three or more
collapse to a single slash. -/
def initialSlashes : PyStr → Nat
  | '/' :: '/' :: '/' :: _ => 1
  | '/' :: '/' :: _ => 2
  | '/' :: _ => 1
  | _ => 0

/-- The component loop of `posixpath.normpath`: drop empty and `.` parts,
resolve `..` against the accumulated components (`acc` is kept reversed). -/
def normLoop (hasRoot : Bool) : List PyStr → List PyStr → List PyStr
  | acc, [] => acc.reverse
  | acc, c :: rest =>
    if c = [] ∨ c = pys "." then normLoop hasRoot acc rest
    else if c ≠ pys ".." ∨ (¬ hasRoot ∧ acc = []) ∨ acc.head? = some (pys "..") then
      normLoop hasRoot (c :: acc) rest
    else
      match acc with
      | _ :: t => normLoop hasRoot t rest
      | [] => normLoop hasRoot [] rest

/-- Model of `posixpath.normpath`. -/
def normpath (p : PyStr) : PyStr :=
  if p = [] then pys "."
  else
    let ini := initialSlashes p
    let comps := normLoop (ini ≠ 0) [] (splitSlash p)
    let res := List.replicate ini '/' ++ (List.intercalate (pys "/") comps)
    if res = [] then pys "." else res

/-- Model of `posixpath.join` for two arguments. -/
def pjoin (a b : PyStr) : PyStr :=
  if isabs b then b
  else if a = [] ∨ a.getLast? = some '/' then a ++ b
  else a ++ '/' :: b

/-- Model of `posixpath.abspath`, with the process working directory passed explicitly. -/
def abspath (cwd p : PyStr) : PyStr :=
  if isabs p then normpath p else normpath (pjoin cwd p)

/-- Model of `os.path.normcase` on POSIX: the identity. -/
def normcase (p : PyStr) : PyStr := p

/-- Model of `os.path.commonprefix` for two strings: their character-wise longest
common prefix. -/
def commonprefix : PyStr → PyStr → PyStr
  | c1 :: r1, c2 :: r2 => if c1 = c2 then c1 :: commonprefix r1 r2 else []
  | _, _ => []

/-- JSON values, as produced by `json.load` on the wire files. -/
inductive JValue where
  | null
  | bool (b : Bool)
  | num (n : Int)
  | str (s : PyStr)
  | arr (xs : List JValue)
  | obj (kvs : List (PyStr × JValue))

/-- Python truthiness of a JSON value (`None` and absent fields are falsy). -/
def truthy : Option JValue → Bool
  | none => false
  | some .null => false
  | some (.bool b) => b
  | some (.num n) => n ≠ 0
  | some (.str s) => s ≠ []
  | some (.arr xs) => !xs.isEmpty
  | some (.obj kvs) => !kvs.isEmpty

/-- Model of `dict.get(key)` on a JSON object; `none` when the value is not an object
or the key is absent. -/
def jget (v : JValue) (key : PyStr) : Option JValue :=
  match v with
  | .obj kvs => kvs.lookup key
  | _ => none

/-- Model of `dict.get(key, default)` on a JSON object. -/
def jgetD (v : JValue) (key : PyStr) (dflt : JValue) : JValue :=
  (jget v key).getD dflt

/-- The exceptions the wrapper layer can raise or propagate.
`valueError` is what `norm_and_check` raises (the spec calls it
`InvalidPathError`); `calledProcessError` comes from `subprocess.check_call`;
`keyError` from indexing a missing `return_val`; `ioError` from reading a
missing file; `runnerError` stands for an arbitrary exception raised by a
custom subprocess runner. -/
inductive PyErr where
  | valueError (msg : PyStr)
  | unsupportedOperation (traceback : JValue)
  | backendUnavailable (traceback : JValue)
  | backendInvalid (backend_name : PyStr) (backend_path : Option (List PyStr)) (message : JValue)
  | calledProcessError (returncode : Int)
  | keyError (key : PyStr)
  | ioError (path : PyStr)
  | runnerError (msg : PyStr)

/-- Model of `norm_and_check(source_tree, requested)` from `wrappers.py`: reject
absolute backend-path entries, resolve the entry against the absolute source
tree, and require the normalised source tree to be a character-wise common
prefix of the normalised resolution.  The process working directory `cwd`
(implicit in Python's `os.path.abspath`) is passed explicitly. -/
def norm_and_check (cwd source_tree requested : PyStr) : Except PyErr PyStr :=
  if isabs requested then .error (.valueError (pys "paths must be relative"))
  else
    let abs_source := abspath cwd source_tree
    let abs_requested := normpath (pjoin abs_source requested)
    let norm_source := normcase abs_source
    let norm_requested := normcase abs_requested
    if commonprefix norm_source norm_requested ≠ norm_source then
      .error (.valueError (pys "paths must be inside source tree"))
    else .ok abs_requested

/-- The immutable attributes of a `Pep517HookCaller` (the mutable
`_subprocess_runner` slot is modelled separately as explicit state, see
`subprocess_runner`).  `backend_path` is `none` for the Python `None` default;
`some []` models an empty list argument. -/
structure Pep517HookCaller where
  source_dir : PyStr
  build_backend : PyStr
  backend_path : Option (List PyStr)

/-- Python truthiness of the `backend_path` argument (`None` and `[]` are
falsy). -/
def bpTruthy : Option (List PyStr) → Bool
  | none => false
  | some l => !l.isEmpty

/-- A Python list comprehension whose element expression may raise: evaluate
left to right, propagating the first exception. -/
def mapExcept (f : α → Except PyErr β) : List α → Except PyErr (List β)
  | [] => .ok []
  | x :: rest =>
    match f x with
    | .error e => .error e
    | .ok y => (mapExcept f rest).map (fun ys => y :: ys)

/-- Model of `Pep517HookCaller.__init__`: make `source_dir` absolute and, when
`backend_path` is truthy, validate every entry through `norm_and_check`
(eagerly, at construction), storing the validated absolute forms; a falsy
`backend_path` is stored as given, unvalidated. -/
def hookCallerInit (cwd source_dir build_backend : PyStr)
    (backend_path : Option (List PyStr)) : Except PyErr Pep517HookCaller :=
  let sd := abspath cwd source_dir
  if bpTruthy backend_path then
    match backend_path with
    | some bp =>
      (mapExcept (norm_and_check cwd sd) bp).map
        (fun validated => ⟨sd, build_backend, some validated⟩)
    | none => .ok ⟨sd, build_backend, none⟩
  else .ok ⟨sd, build_backend, backend_path⟩

/-- The `subprocess_runner` context manager of `Pep517HookCaller`, with the
mutable `_subprocess_runner` attribute made an explicit state of type `ρ`.
The generator has no `try`/`finally` around its `yield`: when the body
completes normally the line after the `yield` restores the previous runner;
when the body raises, the exception propagates out of the generator and the
restoring line never runs, so the state is whatever the body left. -/
def subprocess_runner (runner : ρ) (body : ρ → Except PyErr α × ρ)
    (state : ρ) : Except PyErr α × ρ :=
  let prev := state
  let state1 := runner
  match body state1 with
  | (.ok a, _) => (.ok a, prev)
  | (.error e, state2) => (.error e, state2)

/-- Python `dict.__setitem__` on an association list: overwrite the existing
binding for the key, else append. -/
def setItem (d : List (PyStr × PyStr)) (k v : PyStr) : List (PyStr × PyStr) :=
  match d with
  | [] => [(k, v)]
  | (k', v') :: rest => if k' = k then (k, v) :: rest else (k', v') :: setItem rest k v

/-- Python `dict.update`: set each entry of `ee` in turn. -/
def dictUpdate (d ee : List (PyStr × PyStr)) : List (PyStr × PyStr) :=
  match ee with
  | [] => d
  | (k, v) :: rest => dictUpdate (setItem d k v) rest

/-- What one invocation of `default_subprocess_runner` produces: the call's
outcome, the environment handed to the child process, and the parent
process's `os.environ` as it stands after the call. -/
structure RunnerCall where
  result : Except PyErr Unit
  child_env : List (PyStr × PyStr)
  os_environ_after : List (PyStr × PyStr)

/-- Model of `default_subprocess_runner(cmd, cwd, extra_environ)`: copy `os.environ`,
overlay `extra_environ` when truthy, and `subprocess.check_call` the command
(which raises `CalledProcessError` on a non-zero exit status, here the
parameter `returncode`). -/
def default_subprocess_runner (cmd : List PyStr) (cwd : Option PyStr)
    (extra_environ : Option (List (PyStr × PyStr)))
    (os_environ : List (PyStr × PyStr)) (returncode : Int) : RunnerCall :=
  let env := os_environ
  let env := match extra_environ with
    | some ee => if ee.isEmpty then env else dictUpdate env ee
    | none => env
  { result := if returncode = 0 then .ok () else .error (.calledProcessError returncode)
    child_env := env
    os_environ_after := os_environ }

/-- The filesystem state the wrapper touches: the set of existing scratch
directories and the JSON files on disk. -/
structure FS where
  dirs : List PyStr
  files : List (PyStr × JValue)

/-- A name not colliding with any existing directory (one character longer
than the longest), standing in for the fresh name that `tempfile.mkdtemp` produces. -/
def freshName (fs : FS) : PyStr :=
  pys "/tmp/" ++ List.replicate ((fs.dirs.map List.length).foldr max 0 + 1) 't'

/-- Model of `tempfile.mkdtemp`: create a fresh directory and return its path. -/
def mkdtemp (fs : FS) : PyStr × FS :=
  (freshName fs, { fs with dirs := freshName fs :: fs.dirs })

/-- Model of `shutil.rmtree`: delete the directory and everything below it. -/
def rmtree (td : PyStr) (fs : FS) : FS :=
  { dirs := fs.dirs.filter (fun d => d ≠ td)
    files := fs.files.filter (fun kv => kv.1 ≠ td ∧ ¬ (td ++ ['/']).isPrefixOf kv.1) }

/-- The `tempdir()` context manager of `wrappers.py`: `mkdtemp`, run the
body, and — in a `finally` clause, hence on success and on exception alike —
`rmtree` the directory. -/
def tempdir (body : PyStr → FS → Except PyErr α × FS) (fs : FS) :
    Except PyErr α × FS :=
  let p := mkdtemp fs
  let res := body p.1 p.2
  (res.1, rmtree p.1 res.2)

/-- Model of `compat.write_json`: store the value at the path (overwriting). -/
def write_json (obj : JValue) (path : PyStr) (fs : FS) : FS :=
  { fs with files := (path, obj) :: fs.files.filter (fun kv => kv.1 ≠ path) }

/-- Model of `compat.read_json`: load the value at the path; missing file is an
I/O error. -/
def read_json (path : PyStr) (fs : FS) : Except PyErr JValue :=
  match fs.files.lookup path with
  | some v => .ok v
  | none => .error (.ioError path)

/-- A subprocess runner as `_call_hook` sees it: command line, working
directory, extra environment; it may touch the filesystem (the real backend
writes `output.json`) and may raise. -/
abbrev Runner := List PyStr → PyStr → List (PyStr × PyStr) → FS → Except PyErr Unit × FS

/-- Model of `sys.executable`, an arbitrary fixed interpreter path. -/
def sys_executable : PyStr := pys "/usr/bin/python3"

/-- Model of `_in_proc_script`, the fixed path of `_in_process.py` next to
`wrappers.py`. -/
def in_proc_script : PyStr := pys "/site/pep517/_in_process.py"

/-- Model of `os.pathsep.join` on POSIX (separator `:`). -/
def pathsepJoin (ps : List PyStr) : PyStr := List.intercalate (pys ":") ps

/-- The `extra_environ` mapping `_call_hook` builds: always
`PEP517_BUILD_BACKEND`, plus `PEP517_BACKEND_PATH` when `self.backend_path`
is truthy (the Python 2 encoding branches are dead on the modelled
Python 3). -/
def mkExtraEnviron (self : Pep517HookCaller) : List (PyStr × PyStr) :=
  let base := [(pys "PEP517_BUILD_BACKEND", self.build_backend)]
  if bpTruthy self.backend_path then
    base ++ [(pys "PEP517_BACKEND_PATH", pathsepJoin (self.backend_path.getD []))]
  else base

/-- The classification tail of `_call_hook`: inspect the parsed
`output.json` payload; `unsupported`, then `no_backend`, then
`backend_invalid`, each judged by `dict.get` truthiness; otherwise index
`return_val` (a missing key is a `KeyError`). -/
def classify (self : Pep517HookCaller) (data : JValue) : Except PyErr JValue :=
  if truthy (jget data (pys "unsupported")) then
    .error (.unsupportedOperation (jgetD data (pys "traceback") (.str [])))
  else if truthy (jget data (pys "no_backend")) then
    .error (.backendUnavailable (jgetD data (pys "traceback") (.str [])))
  else if truthy (jget data (pys "backend_invalid")) then
    .error (.backendInvalid self.build_backend self.backend_path
      (jgetD data (pys "backend_error") (.str [])))
  else
    match jget data (pys "return_val") with
    | some v => .ok v
    | none => .error (.keyError (pys "return_val"))

/-- The write of `input.json` inside `_call_hook`: serialise
`{"kwargs": kwargs}` into the scratch directory. -/
def call_hook_prepare (kwargs : JValue) (td : PyStr) (fs : FS) : FS :=
  write_json (.obj [(pys "kwargs", kwargs)]) (pjoin td (pys "input.json")) fs

/-- Model of `Pep517HookCaller._call_hook`: build the environment overlay, acquire a
scratch directory, write `input.json`, run the hook through the installed
runner, read back `output.json`, and classify the payload. -/
def call_hook (runner : Runner) (self : Pep517HookCaller) (hook_name : PyStr)
    (kwargs : JValue) (fs : FS) : Except PyErr JValue × FS :=
  let extra_environ := mkExtraEnviron self
  tempdir (fun td fs1 =>
    let fs2 := call_hook_prepare kwargs td fs1
    match runner [sys_executable, in_proc_script, hook_name, td]
        self.source_dir extra_environ fs2 with
    | (.error e, fs3) => (.error e, fs3)
    | (.ok _, fs3) =>
      match read_json (pjoin td (pys "output.json")) fs3 with
      | .error e => (.error e, fs3)
      | .ok data => (classify self data, fs3)) fs

/-- The keyword arguments `get_requires_for_build_wheel` sends. -/
def get_requires_for_build_wheel_kwargs (config_settings : JValue) : JValue :=
  .obj [(pys "config_settings", config_settings)]

/-- The keyword arguments `prepare_metadata_for_build_wheel` sends:
`metadata_directory` made absolute, `config_settings` verbatim. -/
def prepare_metadata_for_build_wheel_kwargs (cwd metadata_directory : PyStr)
    (config_settings : JValue) : JValue :=
  .obj [(pys "metadata_directory", .str (abspath cwd metadata_directory)),
        (pys "config_settings", config_settings)]

/-- The keyword arguments `build_wheel` sends: `wheel_directory` made
absolute, `config_settings` verbatim, `metadata_directory` made absolute
only when supplied (else `None`). -/
def build_wheel_kwargs (cwd wheel_directory : PyStr) (config_settings : JValue)
    (metadata_directory : Option PyStr) : JValue :=
  .obj [(pys "wheel_directory", .str (abspath cwd wheel_directory)),
        (pys "config_settings", config_settings),
        (pys "metadata_directory",
          match metadata_directory with
          | some m => .str (abspath cwd m)
          | none => .null)]

/-- The keyword arguments `get_requires_for_build_sdist` sends. -/
def get_requires_for_build_sdist_kwargs (config_settings : JValue) : JValue :=
  .obj [(pys "config_settings", config_settings)]

/-- The keyword arguments `build_sdist` sends: `sdist_directory` made
absolute, `config_settings` verbatim. -/
def build_sdist_kwargs (cwd sdist_directory : PyStr) (config_settings : JValue) : JValue :=
  .obj [(pys "sdist_directory", .str (abspath cwd sdist_directory)),
        (pys "config_settings", config_settings)]

/-- Model of `Pep517HookCaller.get_requires_for_build_wheel`. -/
def get_requires_for_build_wheel (runner : Runner) (self : Pep517HookCaller)
    (config_settings : JValue) (fs : FS) : Except PyErr JValue × FS :=
  call_hook runner self (pys "get_requires_for_build_wheel")
    (get_requires_for_build_wheel_kwargs config_settings) fs

/-- Model of `Pep517HookCaller.prepare_metadata_for_build_wheel`. -/
def prepare_metadata_for_build_wheel (cwd : PyStr) (runner : Runner)
    (self : Pep517HookCaller) (metadata_directory : PyStr)
    (config_settings : JValue) (fs : FS) : Except PyErr JValue × FS :=
  call_hook runner self (pys "prepare_metadata_for_build_wheel")
    (prepare_metadata_for_build_wheel_kwargs cwd metadata_directory config_settings) fs

/-- Model of `Pep517HookCaller.build_wheel`. -/
def build_wheel (cwd : PyStr) (runner : Runner) (self : Pep517HookCaller)
    (wheel_directory : PyStr) (config_settings : JValue)
    (metadata_directory : Option PyStr) (fs : FS) : Except PyErr JValue × FS :=
  call_hook runner self (pys "build_wheel")
    (build_wheel_kwargs cwd wheel_directory config_settings metadata_directory) fs

/-- Model of `Pep517HookCaller.get_requires_for_build_sdist`. -/
def get_requires_for_build_sdist (runner : Runner) (self : Pep517HookCaller)
    (config_settings : JValue) (fs : FS) : Except PyErr JValue × FS :=
  call_hook runner self (pys "get_requires_for_build_sdist")
    (get_requires_for_build_sdist_kwargs config_settings) fs

/-- Model of `Pep517HookCaller.build_sdist`. -/
def build_sdist (cwd : PyStr) (runner : Runner) (self : Pep517HookCaller)
    (sdist_directory : PyStr) (config_settings : JValue) (fs : FS) :
    Except PyErr JValue × FS :=
  call_hook runner self (pys "build_sdist")
    (build_sdist_kwargs cwd sdist_directory config_settings) fs

/-! ### Model sanity checks

The path model is validated point-wise against the behaviour of CPython
posixpath functions on the same inputs. -/

theorem normpath_model_checks :
    normpath (pys "/proj/../proj2") = pys "/proj2" ∧
    normpath (pys "/proj/../../etc") = pys "/etc" ∧
    normpath (pys "//a/../b") = pys "//b" ∧
    normpath (pys "///x/./y") = pys "/x/y" ∧
    normpath (pys "a/b/../../../c") = pys "../c" ∧
    normpath (pys "") = pys "." ∧
    normpath (pys "..") = pys ".." ∧
    normpath (pys "/") = pys "/" ∧
    normpath (pys "//") = pys "//" ∧
    normpath (pys "///") = pys "/" ∧
    normpath (pys "a//b") = pys "a/b" ∧
    pjoin (pys "/proj") (pys "../proj2") = pys "/proj/../proj2" ∧
    pjoin (pys "/proj/") (pys "x") = pys "/proj/x" ∧
    pjoin (pys "") (pys "x") = pys "x" ∧
    commonprefix (pys "/proj") (pys "/proj2") = pys "/proj" ∧
    isabs (pys "") = false := by
  decide

theorem norm_and_check_model_checks :
    norm_and_check (pys "/") (pys "/proj") (pys "../../etc") =
      .error (.valueError (pys "paths must be inside source tree")) ∧
    norm_and_check (pys "/") (pys "/proj") (pys "/abs") =
      .error (.valueError (pys "paths must be relative")) ∧
    norm_and_check (pys "/") (pys "/proj") (pys "sub/dir") = .ok (pys "/proj/sub/dir") ∧
    norm_and_check (pys "/") (pys "/proj") (pys "../outside") =
      .error (.valueError (pys "paths must be inside source tree")) :=
  ⟨rfl, rfl, rfl, rfl⟩

/-! ### Helper lemmas -/

theorem isabs_cons_slash (p : PyStr) (h : isabs p = true) : ∃ t, p = '/' :: t := by
  unfold isabs at h
  split at h
  · rename_i t
    exact ⟨t, rfl⟩
  · exact absurd h (by simp)

theorem isabs_append (a b : PyStr) (h : isabs a = true) : isabs (a ++ b) = true := by
  obtain ⟨t, rfl⟩ := isabs_cons_slash a h
  rfl

theorem isabs_pjoin (a b : PyStr) (h : isabs a = true) : isabs (pjoin a b) = true := by
  obtain ⟨t, rfl⟩ := isabs_cons_slash a h
  unfold pjoin
  split
  · assumption
  · split
    · exact isabs_append _ b h
    · exact isabs_append _ ('/' :: b) h

theorem initialSlashes_pos (t : PyStr) :
    initialSlashes ('/' :: t) = 1 ∨ initialSlashes ('/' :: t) = 2 := by
  unfold initialSlashes
  split <;> simp_all

theorem isabs_normpath (p : PyStr) (h : isabs p = true) : isabs (normpath p) = true := by
  obtain ⟨t, rfl⟩ := isabs_cons_slash p h
  unfold normpath
  simp only [reduceCtorEq, if_false]
  rcases initialSlashes_pos t with hini | hini <;> simp only [hini] <;> rfl

theorem isabs_abspath (cwd p : PyStr) (h : isabs cwd = true) :
    isabs (abspath cwd p) = true := by
  unfold abspath
  split
  · exact isabs_normpath _ (by assumption)
  · exact isabs_normpath _ (isabs_pjoin _ _ h)

theorem lookup_setItem (d : List (PyStr × PyStr)) (k v k' : PyStr) :
    (setItem d k v).lookup k' = if k' = k then some v else d.lookup k' := by
  induction d with
  | nil =>
    by_cases h' : k' = k
    · simp [setItem, List.lookup_cons, h']
    · simp [setItem, List.lookup_cons, beq_false_of_ne h', h']
  | cons hd tl ih =>
    obtain ⟨k0, v0⟩ := hd
    unfold setItem
    by_cases hk : k0 = k
    · subst hk
      by_cases h' : k' = k0
      · simp [List.lookup_cons, h']
      · simp [List.lookup_cons, beq_false_of_ne h', h']
    · simp only [if_neg hk]
      by_cases h' : k' = k0
      · subst h'
        have hne : ¬ k' = k := fun he => hk (he ▸ rfl)
        simp [List.lookup_cons, hne]
      · simp [List.lookup_cons, beq_false_of_ne h', ih]

theorem lookup_eq_none_of_not_mem_keys (d : List (PyStr × PyStr)) (k : PyStr)
    (h : k ∉ d.map Prod.fst) : d.lookup k = none := by
  induction d with
  | nil => rfl
  | cons hd tl ih =>
    obtain ⟨k0, v0⟩ := hd
    simp only [List.map_cons, List.mem_cons, not_or] at h
    simp [List.lookup_cons, beq_false_of_ne h.1, ih h.2]

theorem lookup_dictUpdate (ee : List (PyStr × PyStr)) (d : List (PyStr × PyStr))
    (hnd : (ee.map Prod.fst).Nodup) (k : PyStr) :
    (dictUpdate d ee).lookup k =
      match ee.lookup k with
      | some v => some v
      | none => d.lookup k := by
  induction ee generalizing d with
  | nil => rfl
  | cons hd tl ih =>
    obtain ⟨k0, v0⟩ := hd
    simp only [List.map_cons, List.nodup_cons] at hnd
    unfold dictUpdate
    rw [ih _ hnd.2]
    by_cases hk : k = k0
    · subst hk
      rw [lookup_eq_none_of_not_mem_keys tl k hnd.1]
      simp [List.lookup_cons, lookup_setItem]
    · rw [List.lookup_cons]
      simp only [beq_false_of_ne hk]
      cases tl.lookup k <;> simp [lookup_setItem, hk]

theorem norm_and_check_error_form (cwd st p : PyStr) (e : PyErr)
    (h : norm_and_check cwd st p = .error e) : ∃ m, e = .valueError m := by
  unfold norm_and_check at h
  simp only [normcase] at h
  split at h
  · exact ⟨_, (Except.error.inj h).symm⟩
  · split at h
    · exact ⟨_, (Except.error.inj h).symm⟩
    · exact absurd h (by simp)

theorem mapExcept_error_of_mem (f : α → Except PyErr β) (l : List α) (x : α)
    (hx : x ∈ l) (e : PyErr) (he : f x = .error e) :
    ∃ e', mapExcept f l = .error e' := by
  induction l with
  | nil => exact absurd hx (List.not_mem_nil x)
  | cons y t ih =>
    unfold mapExcept
    rcases List.mem_cons.mp hx with rfl | hmem
    · rw [he]
      exact ⟨e, rfl⟩
    · match hy : f y with
      | .error e0 => exact ⟨e0, rfl⟩
      | .ok b =>
        obtain ⟨e', he'⟩ := ih hmem
        rw [he']
        exact ⟨e', rfl⟩

theorem mapExcept_error_form (f : α → Except PyErr β)
    (hf : ∀ x e, f x = .error e → ∃ m, e = .valueError m) (l : List α) (e : PyErr)
    (h : mapExcept f l = .error e) : ∃ m, e = .valueError m := by
  induction l generalizing e with
  | nil => exact absurd h (by simp [mapExcept])
  | cons y t ih =>
    unfold mapExcept at h
    split at h
    · rename_i e0 hy
      cases h
      exact hf y _ hy
    · rename_i b hy
      match ht : mapExcept f t with
      | .error e1 =>
        rw [ht] at h
        simp only [Except.map] at h
        cases h
        exact ih _ ht
      | .ok ys =>
        rw [ht] at h
        exact absurd h (by simp [Except.map])

theorem read_write_json (v : JValue) (path : PyStr) (fs : FS) :
    read_json path (write_json v path fs) = .ok v := by
  simp [read_json, write_json, List.lookup_cons]

theorem rmtree_cleanup (td : PyStr) (fs : FS) :
    td ∉ (rmtree td fs).dirs ∧
      ∀ f ∈ (rmtree td fs).files, ¬ (td ++ ['/']).isPrefixOf f.1 := by
  constructor
  · intro hmem
    simp [rmtree, List.mem_filter] at hmem
  · intro f hmem
    simp only [rmtree, List.mem_filter, decide_eq_true_eq] at hmem
    exact hmem.2.2

/-! ### Claim theorems -/

/-- Claim C1 (code bug): `norm_and_check` is documented to ensure the
requested path resolves to a location under the source tree, and the claim
says it fails whenever the normalised resolution is not a descendant of (or
equal to) the root; but its character-based `commonprefix` test accepts
`../proj2` against root `/proj`: the call returns `/proj2`, which is neither
equal to `/proj` nor below `/proj/`. -/
theorem norm_and_check_commonprefix_escape :
    norm_and_check (pys "/") (pys "/proj") (pys "../proj2") = .ok (pys "/proj2") ∧
    pys "/proj2" ≠ pys "/proj" ∧
    (pys "/proj/").isPrefixOf (pys "/proj2") = false :=
  ⟨rfl, by decide, by decide⟩

/-- Claim C2 (code bug): the `subprocess_runner` scope (state modelled as a
`Nat`-valued runner slot, previous runner `0`, override `1`) hands the
override to the body and restores `0` on normal exit; but since the
generator's `yield` is not wrapped in `try`/`finally`, when the body raises
the override `1` is left installed instead of the previous runner `0`. -/
theorem subprocess_runner_not_restored_on_raise :
    (subprocess_runner 1 (fun r => (.ok r, r)) 0 = (.ok 1, 0)) ∧
    (subprocess_runner 1 (fun r => ((.error (.runnerError (pys "boom")) : Except PyErr Nat), r)) 0 =
      (.error (.runnerError (pys "boom")), 1)) ∧
    (1 : Nat) ≠ 0 :=
  ⟨rfl, rfl, by decide⟩

/-- Claim C3: the scratch directory created by `_call_hook` no longer exists
after the call, for every subprocess runner behaviour (success, any
structured-failure payload it leaves in `output.json`, or an exception it
raises) — and neither does any file inside it. -/
theorem call_hook_scratchdir_deleted (runner : Runner) (self : Pep517HookCaller)
    (hook_name : PyStr) (kwargs : JValue) (fs : FS) :
    freshName fs ∉ ((call_hook runner self hook_name kwargs fs).2).dirs ∧
    ∀ f ∈ ((call_hook runner self hook_name kwargs fs).2).files,
      ¬ (freshName fs ++ ['/']).isPrefixOf f.1 :=
  rmtree_cleanup (freshName fs) _

/-- Claim C4: `_call_hook` classifies the parsed payload in a fixed order —
a truthy `unsupported` marker raises `UnsupportedOperation` with the
payload's traceback text; else a truthy `no_backend` raises
`BackendUnavailable` with the traceback text; else a truthy
`backend_invalid` raises `BackendInvalid` carrying the caller's backend
identifier, backend path, and the payload's `backend_error` message;
otherwise the call returns exactly the payload's `return_val` value. -/
theorem classify_fixed_order (self : Pep517HookCaller) (data : JValue) :
    (truthy (jget data (pys "unsupported")) = true →
      classify self data =
        .error (.unsupportedOperation (jgetD data (pys "traceback") (.str [])))) ∧
    (truthy (jget data (pys "unsupported")) = false →
     truthy (jget data (pys "no_backend")) = true →
      classify self data =
        .error (.backendUnavailable (jgetD data (pys "traceback") (.str [])))) ∧
    (truthy (jget data (pys "unsupported")) = false →
     truthy (jget data (pys "no_backend")) = false →
     truthy (jget data (pys "backend_invalid")) = true →
      classify self data =
        .error (.backendInvalid self.build_backend self.backend_path
          (jgetD data (pys "backend_error") (.str [])))) ∧
    (∀ v, truthy (jget data (pys "unsupported")) = false →
     truthy (jget data (pys "no_backend")) = false →
     truthy (jget data (pys "backend_invalid")) = false →
     jget data (pys "return_val") = some v →
      classify self data = .ok v) := by
  refine ⟨fun h1 => ?_, fun h1 h2 => ?_, fun h1 h2 h3 => ?_, fun v h1 h2 h3 h4 => ?_⟩
  · simp [classify, h1]
  · simp [classify, h1, h2]
  · simp [classify, h1, h2, h3]
  · simp [classify, h1, h2, h3, h4]

/-- Claim C4 witness: concrete payloads exercising the four branches. -/
theorem classify_fixed_order_witness :
    classify ⟨pys "/proj", pys "x", none⟩
      (.obj [(pys "unsupported", .bool true), (pys "traceback", .str (pys "T"))]) =
      .error (.unsupportedOperation (.str (pys "T"))) ∧
    classify ⟨pys "/proj", pys "x", none⟩
      (.obj [(pys "no_backend", .bool true), (pys "traceback", .str (pys "T"))]) =
      .error (.backendUnavailable (.str (pys "T"))) ∧
    classify ⟨pys "/proj", pys "x", none⟩
      (.obj [(pys "backend_invalid", .bool true), (pys "backend_error", .str (pys "M"))]) =
      .error (.backendInvalid (pys "x") none (.str (pys "M"))) ∧
    classify ⟨pys "/proj", pys "x", none⟩
      (.obj [(pys "return_val", .num 7)]) = .ok (.num 7) := by
  refine ⟨?_, ?_, ?_, ?_⟩
  · exact (classify_fixed_order ⟨pys "/proj", pys "x", none⟩
      (.obj [(pys "unsupported", .bool true), (pys "traceback", .str (pys "T"))])).1 rfl
  · exact (classify_fixed_order ⟨pys "/proj", pys "x", none⟩
      (.obj [(pys "no_backend", .bool true), (pys "traceback", .str (pys "T"))])).2.1 rfl rfl
  · exact (classify_fixed_order ⟨pys "/proj", pys "x", none⟩
      (.obj [(pys "backend_invalid", .bool true), (pys "backend_error", .str (pys "M"))])).2.2.1
      rfl rfl rfl
  · exact (classify_fixed_order ⟨pys "/proj", pys "x", none⟩
      (.obj [(pys "return_val", .num 7)])).2.2.2 (.num 7) rfl rfl rfl rfl

/-- Claim C10: failure markers are judged by truthiness, not presence — a
payload with a falsy marker (Boolean `false`, the number `0`, an empty
string or an empty array) is classified as a success payload; and when
several markers are truthy, `unsupported` precedes `no_backend`, which
precedes `backend_invalid`, so exactly one exception kind is raised. -/
theorem classify_truthiness_and_precedence (self : Pep517HookCaller) (x t : JValue) :
    classify self (.obj [(pys "unsupported", .bool false), (pys "return_val", x)]) = .ok x ∧
    classify self (.obj [(pys "unsupported", .num 0), (pys "no_backend", .str []),
      (pys "backend_invalid", .arr []), (pys "return_val", x)]) = .ok x ∧
    classify self (.obj [(pys "unsupported", .bool true), (pys "no_backend", .bool true),
      (pys "backend_invalid", .bool true), (pys "traceback", t)]) =
      .error (.unsupportedOperation t) ∧
    classify self (.obj [(pys "no_backend", .bool true), (pys "backend_invalid", .bool true),
      (pys "traceback", t)]) = .error (.backendUnavailable t) :=
  ⟨rfl, rfl, rfl, rfl⟩

/-- Claim C6: the environment overlay `_call_hook` hands to the subprocess
runner always maps `PEP517_BUILD_BACKEND` to the caller's backend
identifier, and contains `PEP517_BACKEND_PATH` — the backend path entries
joined with the platform path-list separator — exactly when the caller's
`backend_path` is set (truthy). -/
theorem mkExtraEnviron_spec (self : Pep517HookCaller) :
    (mkExtraEnviron self).lookup (pys "PEP517_BUILD_BACKEND") = some self.build_backend ∧
    (mkExtraEnviron self).lookup (pys "PEP517_BACKEND_PATH") =
      (if bpTruthy self.backend_path then some (pathsepJoin (self.backend_path.getD []))
       else none) := by
  cases h : bpTruthy self.backend_path <;>
    simp only [mkExtraEnviron, h, if_true, if_false] <;> exact ⟨rfl, rfl⟩

/-- Claim C9: constructing with an empty `backend_path` list performs no
path validation (construction succeeds for every working directory and
source directory, storing the empty list unchanged), and for both falsy
forms of `backend_path` (`None` and the empty list) the environment overlay
carries no `PEP517_BACKEND_PATH` variable. -/
theorem falsy_backend_path_spec (cwd source_dir build_backend sd' bb : PyStr) :
    hookCallerInit cwd source_dir build_backend (some []) =
      .ok ⟨abspath cwd source_dir, build_backend, some []⟩ ∧
    hookCallerInit cwd source_dir build_backend none =
      .ok ⟨abspath cwd source_dir, build_backend, none⟩ ∧
    (mkExtraEnviron ⟨sd', bb, some []⟩).lookup (pys "PEP517_BACKEND_PATH") = none ∧
    (mkExtraEnviron ⟨sd', bb, none⟩).lookup (pys "PEP517_BACKEND_PATH") = none :=
  ⟨rfl, rfl, rfl, rfl⟩

/-- Claim C7: the default subprocess runner passes the child a fresh copy of
the current process environment overlaid with the `extra_environ` entries
(an entry of `extra_environ` wins on key collision), leaves the parent
process's `os.environ` untouched, and fails with `CalledProcessError`
exactly when the child's exit status is non-zero. -/
theorem default_subprocess_runner_spec (cmd : List PyStr) (cwd : Option PyStr)
    (extra os_environ : List (PyStr × PyStr)) (returncode : Int)
    (hnd : (extra.map Prod.fst).Nodup) :
    ((default_subprocess_runner cmd cwd (some extra) os_environ returncode).result =
      if returncode = 0 then .ok () else .error (.calledProcessError returncode)) ∧
    ((default_subprocess_runner cmd cwd (some extra) os_environ returncode).os_environ_after =
      os_environ) ∧
    (∀ k, ((default_subprocess_runner cmd cwd (some extra) os_environ returncode).child_env).lookup k =
      match extra.lookup k with
      | some v => some v
      | none => os_environ.lookup k) ∧
    ((default_subprocess_runner cmd cwd none os_environ returncode).child_env = os_environ) := by
  refine ⟨rfl, rfl, fun k => ?_, rfl⟩
  cases extra with
  | nil => rfl
  | cons hd tl => exact lookup_dictUpdate (hd :: tl) os_environ hnd k

/-- Claim C7 witness: overlaying `A=1` over an environment with `A=0, B=2`
for a child exiting with status 3. -/
theorem default_subprocess_runner_spec_witness :
    ((([(pys "A", pys "1")] : List (PyStr × PyStr)).map Prod.fst).Nodup) ∧
    (default_subprocess_runner [] none (some [(pys "A", pys "1")])
      [(pys "A", pys "0"), (pys "B", pys "2")] 3).result = .error (.calledProcessError 3) ∧
    (default_subprocess_runner [] none (some [(pys "A", pys "1")])
      [(pys "A", pys "0"), (pys "B", pys "2")] 3).child_env.lookup (pys "A") = some (pys "1") ∧
    (default_subprocess_runner [] none (some [(pys "A", pys "1")])
      [(pys "A", pys "0"), (pys "B", pys "2")] 3).child_env.lookup (pys "B") = some (pys "2") ∧
    (default_subprocess_runner [] none (some [(pys "A", pys "1")])
      [(pys "A", pys "0"), (pys "B", pys "2")] 3).os_environ_after =
      [(pys "A", pys "0"), (pys "B", pys "2")] := by
  have h := default_subprocess_runner_spec [] none [(pys "A", pys "1")]
    [(pys "A", pys "0"), (pys "B", pys "2")] 3 (by simp)
  exact ⟨by simp, h.1, h.2.2.1 (pys "A"), h.2.2.1 (pys "B"), h.2.1⟩

theorem norm_and_check_ok_form (cwd st p q : PyStr)
    (h : norm_and_check cwd st p = .ok q) :
    q = normpath (pjoin (abspath cwd st) p) := by
  unfold norm_and_check at h
  simp only [normcase] at h
  split at h
  · exact absurd h (by simp)
  · split at h
    · exact absurd h (by simp)
    · exact (Except.ok.inj h).symm

theorem norm_and_check_absolute_rejected (cwd st p : PyStr) (h : isabs p = true) :
    norm_and_check cwd st p = .error (.valueError (pys "paths must be relative")) := by
  simp [norm_and_check, h]

theorem mapExcept_ok_mem (f : α → Except PyErr β) (l : List α) (ys : List β)
    (h : mapExcept f l = .ok ys) : ∀ y ∈ ys, ∃ x ∈ l, f x = .ok y := by
  induction l generalizing ys with
  | nil =>
    unfold mapExcept at h
    cases h
    intro y hy
    exact absurd hy (List.not_mem_nil y)
  | cons x t ih =>
    unfold mapExcept at h
    split at h
    · exact absurd h (by simp)
    · rename_i b hx
      match ht : mapExcept f t with
      | .error e =>
        rw [ht] at h
        exact absurd h (by simp [Except.map])
      | .ok zs =>
        rw [ht] at h
        simp only [Except.map] at h
        cases h
        intro y hy
        rcases List.mem_cons.mp hy with rfl | hmem
        · exact ⟨x, List.mem_cons_self x t, hx⟩
        · obtain ⟨x', hx', hfx'⟩ := ih zs ht y hmem
          exact ⟨x', List.mem_cons_of_mem _ hx', hfx'⟩

theorem bpTruthy_of_ne_nil (bp : List PyStr) (h : bp ≠ []) :
    bpTruthy (some bp) = true := by
  cases bp with
  | nil => exact absurd rfl h
  | cons hd tl => rfl

/-- Claim C5 counterexample: with root `/proj`, the backend-path entry
`../proj2` escapes the project root (it resolves to `/proj2`, neither equal
to `/proj` nor below `/proj/`), yet construction succeeds and stores it,
because the validator's check is a character-wise common-prefix test. -/
theorem hookCallerInit_accepts_escaping_entry :
    hookCallerInit (pys "/") (pys "/proj") (pys "x") (some [pys "../proj2"]) =
      .ok ⟨pys "/proj", pys "x", some [pys "/proj2"]⟩ ∧
    pys "/proj2" ≠ pys "/proj" ∧
    (pys "/proj/").isPrefixOf (pys "/proj2") = false :=
  ⟨rfl, by decide, by decide⟩

/-- Claim C5 (amended): for every construction with a non-empty
`backend_path`, every entry is validated eagerly at construction time: if
any entry is an absolute path, or any entry fails the validator's
common-prefix containment check, construction fails with `InvalidPathError`
(a `ValueError`); when all entries validate, construction succeeds and the
stored `backend_path` consists exactly of the validator's absolute results
(each an absolute path whenever the working directory is absolute). -/
theorem hookCallerInit_eager_validation (cwd source_dir build_backend : PyStr)
    (bp : List PyStr) (hne : bp ≠ []) :
    ((∃ p ∈ bp, ∃ e, norm_and_check cwd (abspath cwd source_dir) p = .error e) →
      ∃ m, hookCallerInit cwd source_dir build_backend (some bp) =
        .error (.valueError m)) ∧
    ((∃ p ∈ bp, isabs p = true) →
      ∃ m, hookCallerInit cwd source_dir build_backend (some bp) =
        .error (.valueError m)) ∧
    (∀ validated, mapExcept (norm_and_check cwd (abspath cwd source_dir)) bp = .ok validated →
      hookCallerInit cwd source_dir build_backend (some bp) =
        .ok ⟨abspath cwd source_dir, build_backend, some validated⟩) ∧
    (isabs cwd = true → ∀ validated,
      mapExcept (norm_and_check cwd (abspath cwd source_dir)) bp = .ok validated →
      ∀ q ∈ validated, isabs q = true) := by
  have hbt := bpTruthy_of_ne_nil bp hne
  have herr : (∃ p ∈ bp, ∃ e, norm_and_check cwd (abspath cwd source_dir) p = .error e) →
      ∃ m, hookCallerInit cwd source_dir build_backend (some bp) =
        .error (.valueError m) := by
    rintro ⟨p, hp, e, he⟩
    obtain ⟨e', he'⟩ :=
      mapExcept_error_of_mem (norm_and_check cwd (abspath cwd source_dir)) bp p hp e he
    obtain ⟨m, rfl⟩ := mapExcept_error_form _
      (fun x ex hx => norm_and_check_error_form _ _ _ _ hx) bp e' he'
    refine ⟨m, ?_⟩
    simp [hookCallerInit, hbt, he', Except.map]
  refine ⟨herr, ?_, ?_, ?_⟩
  · rintro ⟨p, hp, habs⟩
    exact herr ⟨p, hp, _, norm_and_check_absolute_rejected cwd _ p habs⟩
  · intro validated hmap
    simp [hookCallerInit, hbt, hmap, Except.map]
  · intro hcwd validated hmap q hq
    obtain ⟨p, hp, hok⟩ := mapExcept_ok_mem _ bp validated hmap q hq
    rw [norm_and_check_ok_form _ _ _ _ hok]
    exact isabs_normpath _ (isabs_pjoin _ _ (isabs_abspath cwd (abspath cwd source_dir) hcwd))

/-- Claim C5 witness: the spec's concrete scenario — root `/proj`, entry
`../outside` — fails eagerly at construction with `InvalidPathError`. -/
theorem hookCallerInit_eager_validation_witness :
    ([pys "../outside"] : List PyStr) ≠ [] ∧
    (∃ m, hookCallerInit (pys "/") (pys "/proj") (pys "x") (some [pys "../outside"]) =
      .error (.valueError m)) := by
  have h := hookCallerInit_eager_validation (pys "/") (pys "/proj") (pys "x")
    [pys "../outside"] (by decide)
  exact ⟨by decide, h.1 ⟨pys "../outside", by simp,
    ⟨.valueError (pys "paths must be inside source tree"), rfl⟩⟩⟩

/-- Claim C8: the input file written into the scratch directory is exactly
`{"kwargs": <keyword-argument mapping>}`, where each path-valued argument
(`metadata_directory`, `wheel_directory`, `sdist_directory`, and
`build_wheel`'s `metadata_directory` only when supplied) has been converted
to absolute form, and `config_settings` is passed through verbatim. -/
theorem hook_input_spec (cwd td wd md sd : PyStr) (cs : JValue)
    (mdo : Option PyStr) (fs : FS) (hcwd : isabs cwd = true) :
    (∀ kwargs, read_json (pjoin td (pys "input.json")) (call_hook_prepare kwargs td fs) =
      .ok (.obj [(pys "kwargs", kwargs)])) ∧
    get_requires_for_build_wheel_kwargs cs = .obj [(pys "config_settings", cs)] ∧
    get_requires_for_build_sdist_kwargs cs = .obj [(pys "config_settings", cs)] ∧
    jget (prepare_metadata_for_build_wheel_kwargs cwd md cs) (pys "metadata_directory") =
      some (.str (abspath cwd md)) ∧
    isabs (abspath cwd md) = true ∧
    jget (prepare_metadata_for_build_wheel_kwargs cwd md cs) (pys "config_settings") =
      some cs ∧
    jget (build_wheel_kwargs cwd wd cs mdo) (pys "wheel_directory") =
      some (.str (abspath cwd wd)) ∧
    isabs (abspath cwd wd) = true ∧
    jget (build_wheel_kwargs cwd wd cs mdo) (pys "config_settings") = some cs ∧
    (∀ m, mdo = some m →
      jget (build_wheel_kwargs cwd wd cs mdo) (pys "metadata_directory") =
        some (.str (abspath cwd m)) ∧ isabs (abspath cwd m) = true) ∧
    (mdo = none →
      jget (build_wheel_kwargs cwd wd cs mdo) (pys "metadata_directory") = some .null) ∧
    jget (build_sdist_kwargs cwd sd cs) (pys "sdist_directory") =
      some (.str (abspath cwd sd)) ∧
    isabs (abspath cwd sd) = true ∧
    jget (build_sdist_kwargs cwd sd cs) (pys "config_settings") = some cs := by
  refine ⟨fun kwargs => read_write_json _ _ _, rfl, rfl, rfl, isabs_abspath cwd md hcwd,
    rfl, rfl, isabs_abspath cwd wd hcwd, rfl, ?_, ?_, rfl, isabs_abspath cwd sd hcwd, rfl⟩
  · rintro m rfl
    exact ⟨rfl, isabs_abspath cwd m hcwd⟩
  · rintro rfl
    rfl

/-- Claim C8 witness: a concrete `build_wheel` call from root `/`. -/
theorem hook_input_spec_witness :
    isabs (pys "/") = true ∧
    read_json (pjoin (pys "/tmp/t") (pys "input.json"))
      (call_hook_prepare (build_wheel_kwargs (pys "/") (pys "wheels") .null none)
        (pys "/tmp/t") ⟨[], []⟩) =
      .ok (.obj [(pys "kwargs", build_wheel_kwargs (pys "/") (pys "wheels") .null none)]) ∧
    jget (build_wheel_kwargs (pys "/") (pys "wheels") .null none) (pys "wheel_directory") =
      some (.str (pys "/wheels")) ∧
    isabs (abspath (pys "/") (pys "wheels")) = true := by
  obtain ⟨h1, h2, h3, h4, h5, h6, h7, h8, h9, h10, h11, h12, h13, h14⟩ :=
    hook_input_spec (pys "/") (pys "/tmp/t") (pys "wheels") (pys "md") (pys "sd")
      .null none ⟨[], []⟩ rfl
  exact ⟨rfl, h1 _, h7, h8⟩

/-- Claim C3 witness: a concrete call (runner succeeds without writing
`output.json`) on a filesystem holding one unrelated file; the scratch
directory is gone afterwards and the unrelated file was never inside it. -/
theorem call_hook_scratchdir_deleted_witness :
    freshName ⟨[], [(pys "/etc/passwd", .null)]⟩ ∉
      ((call_hook (fun _ _ _ fs => (.ok (), fs)) ⟨pys "/proj", pys "x", none⟩
        (pys "h") .null ⟨[], [(pys "/etc/passwd", .null)]⟩).2).dirs ∧
    ¬ (freshName ⟨[], [(pys "/etc/passwd", .null)]⟩ ++ ['/']).isPrefixOf
      (pys "/etc/passwd") := by
  have h := call_hook_scratchdir_deleted (fun _ _ _ fs => (.ok (), fs))
    ⟨pys "/proj", pys "x", none⟩ (pys "h") .null ⟨[], [(pys "/etc/passwd", .null)]⟩
  exact ⟨h.1, h.2 (pys "/etc/passwd", .null) (List.mem_cons_self _ _)⟩
